import Mathlib

/-!
Shallow embedding of the core of `bacnet-rs` (object identity, object
registry, property callbacks, concurrent state-text lists) and proofs of
the specification's claims about it.

Modelling conventions:
* Rust `usize` values are `Nat`s below `2^64`; where the source performs
  `usize` subtraction, wrap-around is written explicitly.
* A Rust operation that can `panic!`/`assert!`-abort is embedded with an
  explicit `panicked` outcome in its result type.
* Closures (`Box<dyn FnMut(PropertyValue)>`) are opaque: a callback is a
  numeric id, and `trigger` returns the list of invocations it performs,
  each an (id, argument) pair, in order.
* Hashing: every identity representation in the source hashes by feeding
  the current text into the hasher (`String::hash` / `dyn_hash` through the
  lock guard), so two identities hash equal iff their current texts are
  equal; the hash is therefore modelled as the current text itself.
-/

/-- Callback ids stand in for the opaque boxed `FnMut` closures. -/
abbrev CallbackId := Nat

/-- `PropertyValue` from `src/object` (tagged union over payload kinds);
`real` carries the f32 bit pattern, no arithmetic is performed on it. -/
inductive PropertyValue where
  | real (bits : Nat)
  | boolean (b : Bool)
  | enumerated (n : Nat)
  deriving DecidableEq, Repr

/-- `PropertyIdentifier` restricted to the variants the sampled core
mentions: the two callback-capable kinds plus the kinds the callback
module's documentation names as future work. -/
inductive PropertyIdentifier where
  | PresentValue
  | OutOfService
  | StatusFlags
  | Reliability
  deriving DecidableEq, Repr

/-- `ObjectCallbacks` (src/src/object/callback.rs:42): one optional
subscriber per supported property kind. -/
structure ObjectCallbacks where
  present_value : Option CallbackId
  out_of_service : Option CallbackId
  deriving DecidableEq, Repr

/-- `ObjectCallbacks::default` / `ObjectCallbacks::new`. -/
def ObjectCallbacks.new : ObjectCallbacks := ⟨none, none⟩

/-- `Clone for ObjectCallbacks` (src/src/object/callback.rs:50):
produces an empty collection, callbacks are not cloned. -/
def ObjectCallbacks.cloneCb (_c : ObjectCallbacks) : ObjectCallbacks :=
  ObjectCallbacks.new

/-- `ObjectCallbacks::on_present_value` (src/src/object/callback.rs:90). -/
def ObjectCallbacks.on_present_value (c : ObjectCallbacks) (cb : CallbackId) :
    ObjectCallbacks :=
  { c with present_value := some cb }

/-- `ObjectCallbacks::on_out_of_service` (src/src/object/callback.rs:95). -/
def ObjectCallbacks.on_out_of_service (c : ObjectCallbacks) (cb : CallbackId) :
    ObjectCallbacks :=
  { c with out_of_service := some cb }

/-- `ObjectCallbacks::clear_present_value` (src/src/object/callback.rs:100). -/
def ObjectCallbacks.clear_present_value (c : ObjectCallbacks) : ObjectCallbacks :=
  { c with present_value := none }

/-- `ObjectCallbacks::clear_out_of_service` (src/src/object/callback.rs:105). -/
def ObjectCallbacks.clear_out_of_service (c : ObjectCallbacks) : ObjectCallbacks :=
  { c with out_of_service := none }

/-- `ObjectCallbacks::clear_all` (src/src/object/callback.rs:110). -/
def ObjectCallbacks.clear_all (_c : ObjectCallbacks) : ObjectCallbacks :=
  ⟨none, none⟩

/-- `ObjectCallbacks::trigger` (src/src/object/callback.rs:118): returns
the updated collection together with the list of callback invocations
performed, each as (callback id, argument value). -/
def ObjectCallbacks.trigger (c : ObjectCallbacks) (property : PropertyIdentifier)
    (value : PropertyValue) : ObjectCallbacks × List (CallbackId × PropertyValue) :=
  match property with
  | .PresentValue =>
      match c.present_value with
      | some cb => (c, [(cb, value)])
      | none => (c, [])
  | .OutOfService =>
      match c.out_of_service with
      | some cb => (c, [(cb, value)])
      | none => (c, [])
  | _ => (c, [])

/-- `ObjectCallbacks::has_callback` (src/src/object/callback.rs:137). -/
def ObjectCallbacks.has_callback (c : ObjectCallbacks)
    (property : PropertyIdentifier) : Bool :=
  match property with
  | .PresentValue => c.present_value.isSome
  | .OutOfService => c.out_of_service.isSome
  | _ => false

/-- One `ArcRw<String>` backing cell (src/src/object/object_name.rs:72):
the inner `String` behind the `RwLock`, plus whether the lock is poisoned
(a prior holder panicked while holding it). -/
structure RwCell where
  text : String
  poisoned : Bool
  deriving DecidableEq, Repr

/-- The heap of `ArcRw` cells. Two `Identity.sharedHandle` values holding
the same index alias the same cell, exactly as two `Arc` clones share one
`RwLock`. -/
def RwHeap := Nat → RwCell

/-- `Identity` closed over the two `ObjectName` representations the source
constructs (spec section 9 prescribes exactly this closed tagged variant):
`ownedText` is `String` (src/src/object/object_name.rs:31),
`sharedHandle c` is an `ArcRw<String>` whose `Arc` points at heap cell
`c` (src/src/object/object_name.rs:72). -/
inductive Identity where
  | ownedText (text : String)
  | sharedHandle (cell : Nat)
  deriving DecidableEq, Repr

/-- `ObjectNameParseError` (src/src/object/object_name.rs:27); the boxed
inner error of `Other` is irrelevant to every claim and omitted. -/
inductive ObjectNameParseError where
  | Other
  deriving DecidableEq, Repr

/-- The text currently represented by an identity: an owned `String` is
its own text; an `ArcRw` handle reads the cell behind its lock (poison is
recovered via `into_inner`, so the read always yields the inner value;
src/src/object/object_name.rs:113,132,144). -/
def currentText (h : RwHeap) : Identity → String
  | .ownedText s => s
  | .sharedHandle c => (h c).text

/-- Overwrite the inner `String` of one cell; the poison flag is left as
is (`std` keeps a lock poisoned after recovery via `into_inner`). -/
def RwHeap.setText (h : RwHeap) (c : Nat) (value : String) : RwHeap :=
  fun i => if i = c then { h i with text := value } else h i

/-- `ObjectName::update` for both representations:
`String::update` replaces the value and returns `Ok(())`
(src/src/object/object_name.rs:32); `ArcRw::update` write-locks —
recovering a poisoned lock via `into_inner` and proceeding — and
delegates to the inner `String::update` (src/src/object/object_name.rs:96).
Returns the updated heap and identity together with the `Result`. -/
def Identity.update (h : RwHeap) (v : Identity) (value : String) :
    (RwHeap × Identity) × Except ObjectNameParseError Unit :=
  match v with
  | .ownedText _ => ((h, .ownedText value), .ok ())
  | .sharedHandle c => ((h.setText c value, .sharedHandle c), .ok ())

/-- `Clone`: `String` clones by copy; `Clone for ArcRw`
(src/src/object/object_name.rs:80) clones the `Arc` pointer, so the clone
aliases the same cell. -/
def Identity.cloneId : Identity → Identity
  | .ownedText s => .ownedText s
  | .sharedHandle c => .sharedHandle c

/-- `dyn_eq` through `Box<dyn ObjectName>`: equal only when the concrete
types match; `String` compares texts, `ArcRw` reads both guards
(recovering poison) and compares the inner texts
(src/src/object/object_name.rs:108-123). -/
def Identity.eqId (h : RwHeap) : Identity → Identity → Bool
  | .ownedText a, .ownedText b => a == b
  | .sharedHandle a, .sharedHandle b => (h a).text == (h b).text
  | _, _ => false

/-- `dyn_hash`: both representations feed the current text into the
hasher (`String::hash`; `ArcRw` hashes through the read guard,
src/src/object/object_name.rs:131), so hashes agree iff current texts
agree; the hash is modelled as the current text. -/
def Identity.hashId (h : RwHeap) (v : Identity) : String :=
  currentText h v

/-- Modelled from the spec: `ObjectDatabase` (the object registry) is not
among the sampled sources — only the smoke test in
src/src/object/object_name.rs calls it. Spec section 4.3:
`get_object_by_name(identity)` "behaves as an O(1)-expected hash lookup",
i.e. a `std` `HashMap` keyed by the boxed identity. An entry records the
bucket hash computed from the key at insertion time (a `HashMap` never
re-hashes a resident key) next to the key and the stored object's
instance number. -/
structure ObjectDatabase where
  entries : List (String × Identity × Nat)
  deriving DecidableEq, Repr

/-- Modelled from the spec: insertion into the registry
(`DatabaseBuilder::with_device`/`build`). The identity is stored as
given — for a shared handle this is the `Arc` clone aliasing the live
cell, per the smoke test's "found because it is the same instance" — and
its bucket hash is computed once, now. -/
def ObjectDatabase.insertObject (db : ObjectDatabase) (h : RwHeap)
    (key : Identity) (instanceNum : Nat) : ObjectDatabase :=
  ⟨db.entries ++ [(Identity.hashId h key, key, instanceNum)]⟩

/-- Modelled from the spec: `get_object_by_name` as a `HashMap` lookup —
an entry is found iff the query's current hash equals the entry's
insertion-time bucket hash and the entry's key currently equals the
query. -/
def ObjectDatabase.get_object_by_name (db : ObjectDatabase) (h : RwHeap)
    (q : Identity) : Option Nat :=
  (db.entries.find? (fun e =>
      e.1 == Identity.hashId h q && Identity.eqId h e.2.1 q)).map
    (fun e => e.2.2)

/-- The heap at the start of the smoke test scenario
(src/src/object/object_name.rs:160): cell 0 backs the `ArcRw` handle
created from `"This can be edited"`. -/
def smokeHeap : RwHeap := fun _ => ⟨"This can be edited", false⟩

/-- The registry of the smoke test: one device, instance 1, keyed by a
clone of the shared handle. -/
def smokeDb : ObjectDatabase :=
  ObjectDatabase.insertObject ⟨[]⟩ smokeHeap
    (Identity.cloneId (.sharedHandle 0)) 1

/-- The heap after the other thread runs
`x.update("changed by other thread")` through its clone of the handle. -/
def smokeHeapAfter : RwHeap :=
  (Identity.update smokeHeap (.sharedHandle 0) "changed by other thread").1.1

/-- `StateTextError` (src/src/object/state_text.rs:19). -/
inductive StateTextError where
  | OutOfRange
  deriving DecidableEq, Repr

/-- Outcome of `StateText::get_text` on `&Vec<String>` /
`&mut Vec<String>`: the `Ok` text, the returned `OutOfRange` error, or an
`assert!` abort. -/
inductive GetTextOutcome where
  | ok (s : String)
  | outOfRange
  | panicked
  deriving DecidableEq, Repr

/-- `StateText for &Vec<String>::get_text` (src/src/object/state_text.rs:25,
identical for `&mut Vec<String>` at line 38):
`self.get(index).ok_or(OutOfRange).inspect_err(|_| assert!(index - 1 > self.len())).cloned()`.
On the error path the closure evaluates `index - 1` in `usize`
arithmetic — wrapping to `2^64 - 1` when `index = 0` — and aborts when
the assertion is false. -/
def vec_get_text (l : List String) (index : Nat) : GetTextOutcome :=
  match l.get? index with
  | some s => .ok s
  | none =>
      let sub : Nat := if index = 0 then 2 ^ 64 - 1 else index - 1
      if l.length < sub then .outOfRange else .panicked

/-- `StateText for &Vec<String>::number_of_states`
(src/src/object/state_text.rs:32): `self.len() as u32`. -/
def vec_number_of_states (l : List String) : Nat :=
  l.length % 2 ^ 32

/-- `StateTextMut for &mut Vec<String>::pop_text`
(src/src/object/state_text.rs:55): `Ok(self.pop())` — the list with its
last element removed, together with `Ok` of that element. -/
def vec_pop_text (l : List String) : List String × Except StateTextError (Option String) :=
  (l.dropLast, .ok l.getLast?)

/-- `StateTextMut for &mut Vec<String>::append_text`
(src/src/object/state_text.rs:51): push, then `Ok(self.len())`. -/
def vec_append_text (l : List String) (text : String) :
    List String × Except StateTextError Nat :=
  (l ++ [text], .ok (l ++ [text]).length)

/-- One `Arc<RwLock<String>>` entry of a `SyncStateText`
(src/src/object/state_text/complex.rs:7): its current content, whether
another `Arc` clone of it is held elsewhere (strong count above one), and
whether its lock is poisoned. -/
structure Entry where
  text : String
  shared_elsewhere : Bool
  poisoned : Bool
  deriving DecidableEq, Repr

/-- `SyncStateText` (src/src/object/state_text/complex.rs:5). -/
structure SyncStateText where
  reference_number : Nat
  texts : List Entry
  deriving DecidableEq, Repr

/-- `StateText for &SyncStateText::get_text`
(src/src/object/state_text/complex.rs:11, identical for
`&mut SyncStateText` at line 28): out-of-range index yields `OutOfRange`;
a poisoned entry lock makes `arc.read()` fail, which `map_err` also turns
into `OutOfRange`; otherwise the content is cloned out under the entry's
own lock. -/
def SyncStateText.get_text (s : SyncStateText) (index : Nat) :
    Except StateTextError String :=
  match s.texts.get? index with
  | none => .error .OutOfRange
  | some e => if e.poisoned then .error .OutOfRange else .ok e.text

/-- `StateText for &SyncStateText::number_of_states`
(src/src/object/state_text/complex.rs:22). -/
def SyncStateText.number_of_states (s : SyncStateText) : Nat :=
  s.texts.length % 2 ^ 32

/-- Outcome of `SyncStateText::pop_text`: `Ok(Option<String>)` or the
abort of `lock.into_inner().unwrap()` on a poisoned reclaimed lock. -/
inductive PopOutcome where
  | ok (r : Option String)
  | panicked
  deriving DecidableEq, Repr

/-- `StateTextMut for &mut SyncStateText::pop_text`
(src/src/object/state_text/complex.rs:50): pops the last entry;
`Arc::try_unwrap` fails when the entry's handle is still held elsewhere,
and `.ok()` then discards the content, yielding `Ok(None)` although an
entry was removed; when the `Arc` is reclaimed, `into_inner().unwrap()`
aborts if the entry's lock is poisoned. -/
def SyncStateText.pop_text (s : SyncStateText) : SyncStateText × PopOutcome :=
  match s.texts.getLast? with
  | none => (s, .ok none)
  | some e =>
      let rest : SyncStateText := { s with texts := s.texts.dropLast }
      if e.shared_elsewhere then (rest, .ok none)
      else if e.poisoned then (rest, .panicked)
      else (rest, .ok (some e.text))

/-- `StateTextMut for &mut SyncStateText::append_text`
(src/src/object/state_text/complex.rs:45): pushes a fresh
`Arc::new(RwLock::new(text))` — unshared, unpoisoned — then returns
`Ok(self.texts.len())`. -/
def SyncStateText.append_text (s : SyncStateText) (text : String) :
    SyncStateText × Except StateTextError Nat :=
  let s2 : SyncStateText := { s with texts := s.texts ++ [⟨text, false, false⟩] }
  (s2, .ok s2.texts.length)

/-- The subscriber currently registered in the collection for a property
kind: the `present_value` / `out_of_service` slot
(src/src/object/callback.rs:44,47); every other kind has no slot. -/
def ObjectCallbacks.subscriberFor (c : ObjectCallbacks) :
    PropertyIdentifier → Option CallbackId
  | .PresentValue => c.present_value
  | .OutOfService => c.out_of_service
  | _ => none

/-- Modelled from the spec: the leaf object (`AnalogInput` in
src/examples/callbacks/basic_callback.rs) is not among the sampled
sources. Per spec sections 3 and 4.2 it holds a current `PropertyValue`
per property kind plus the `ObjectCallbacks` collection embedded above
from src/src/object/callback.rs. -/
structure BacnetObj where
  props : PropertyIdentifier → PropertyValue
  callbacks : ObjectCallbacks

/-- Modelled from the spec: `set_property` — the local mutation path,
spec section 4.2: "set_local(value): validates and stores; never
notifies". Returns the updated object and the (empty) list of callback
invocations performed. -/
def BacnetObj.set_property (o : BacnetObj) (p : PropertyIdentifier)
    (v : PropertyValue) : BacnetObj × List (CallbackId × PropertyValue) :=
  ({ o with props := fun q => if q = p then v else o.props q }, [])

/-- Modelled from the spec: `set_property_remote` — the remote mutation
path, spec section 4.2: "identical validation/storage, then — only on
success — synchronously invokes the registered subscriber (if any) with
the new value, on the caller's thread, before returning". The
notification step is the source's `ObjectCallbacks::trigger`
(src/src/object/callback.rs:118). -/
def BacnetObj.set_property_remote (o : BacnetObj) (p : PropertyIdentifier)
    (v : PropertyValue) : BacnetObj × List (CallbackId × PropertyValue) :=
  let stored : BacnetObj :=
    { o with props := fun q => if q = p then v else o.props q }
  let fired := stored.callbacks.trigger p v
  ({ stored with callbacks := fired.1 }, fired.2)

/-- C1: the claim says the registry's keys are frozen snapshots, so after
a Shared identity is mutated through an external handle,
`get_object_by_name` still succeeds for the resident object queried by
its current valid identity. The code stores the live `Arc` clone as the
key, whose hash tracks the mutable cell: in the smoke-test scenario the
lookup succeeds before the mutation and returns `none` afterwards — the
key's current hash no longer matches its insertion-time bucket hash
(the logic error the source's own FIXME comments flag). -/
theorem registry_lookup_desync_after_shared_update :
    ObjectDatabase.get_object_by_name smokeDb smokeHeap (.sharedHandle 0)
        = some 1 ∧
    (Identity.update smokeHeap (.sharedHandle 0) "changed by other thread").2
        = .ok () ∧
    ObjectDatabase.get_object_by_name smokeDb smokeHeapAfter (.sharedHandle 0)
        = none :=
  ⟨rfl, rfl, rfl⟩

/-- C2: the claim says `get_text` returns the stored text in range and
the `OutOfRange` error value — never an abort — out of range, including
index equal to the length. In range the code does return the text, and on
an empty list index 0 the wrapped `usize` subtraction lets the assertion
pass, but at index equal to the (nonzero) length the error-path
`assert!(index - 1 > self.len())` is false and the process aborts. -/
theorem get_text_aborts_at_length :
    vec_get_text ["normal", "alarm"] 0 = .ok "normal" ∧
    vec_get_text ["normal", "alarm"] 1 = .ok "alarm" ∧
    vec_get_text [] 0 = .outOfRange ∧
    vec_get_text ["normal", "alarm"] 2 = .panicked := by
  decide

/-- C3 counterexample: a non-empty `SyncStateText` whose single entry's
content handle is still held elsewhere — `pop_text` removes the entry but
returns `Ok(None)`, not `Some "offline"` as the claim requires for every
non-empty list. -/
theorem pop_text_shared_entry_returns_none :
    (⟨2, [⟨"offline", true, false⟩]⟩ : SyncStateText).texts ≠ [] ∧
    (SyncStateText.pop_text ⟨2, [⟨"offline", true, false⟩]⟩).2 = .ok none ∧
    (SyncStateText.pop_text ⟨2, [⟨"offline", true, false⟩]⟩).1.texts = [] := by
  decide

/-- C3 amended: on an empty list `pop_text` returns `None` and leaves the
list unchanged; on a non-empty list it removes the last entry,
decreasing the number of states by exactly one, and returns `Some` of
that entry's content provided the entry's handle is not shared elsewhere
and its lock is not poisoned — if the handle is still shared the content
is discarded and `None` is returned. The scenario still holds: after
seeding ["normal", "alarm"] and appending "offline", `pop_text` returns
"offline" and the length becomes 2. -/
theorem pop_text_amended (s : SyncStateText) :
    (s.texts = [] → s.pop_text = (s, .ok none)) ∧
    (∀ e, s.texts.getLast? = some e →
      (s.pop_text).1.texts = s.texts.dropLast ∧
      s.texts.length = (s.pop_text).1.texts.length + 1 ∧
      (e.shared_elsewhere = false → e.poisoned = false →
        (s.pop_text).2 = .ok (some e.text)) ∧
      (e.shared_elsewhere = true → (s.pop_text).2 = .ok none)) ∧
    ((((⟨9, [⟨"normal", false, false⟩, ⟨"alarm", false, false⟩]⟩ :
          SyncStateText).append_text "offline").1.pop_text).2
        = .ok (some "offline") ∧
      (((⟨9, [⟨"normal", false, false⟩, ⟨"alarm", false, false⟩]⟩ :
          SyncStateText).append_text "offline").1.pop_text).1.texts.length
        = 2) := by
  refine ⟨?_, ?_, by decide⟩
  · intro hnil
    simp [SyncStateText.pop_text, hnil]
  · intro e he
    have hne : s.texts ≠ [] := fun hnil => by simp [hnil] at he
    have hpos : 0 < s.texts.length := List.length_pos.mpr hne
    have hlen : s.texts.dropLast.length = s.texts.length - 1 :=
      List.length_dropLast _
    cases hse : e.shared_elsewhere <;> cases hpo : e.poisoned <;>
      simp [SyncStateText.pop_text, he, hse, hpo] <;> omega

/-- C3 witness: the amended theorem applied to the one-entry unshared,
unpoisoned list. -/
theorem pop_text_amended_witness :
    (SyncStateText.pop_text ⟨0, [⟨"a", false, false⟩]⟩).2 = .ok (some "a") :=
  ((pop_text_amended ⟨0, [⟨"a", false, false⟩]⟩).2.1 ⟨"a", false, false⟩
      (by decide)).2.2.1 rfl rfl

/-- C4 counterexample: operations touching a poisoned primitive return no
distinct degraded-mode indicator. `SyncStateText::get_text` on an
in-range entry whose lock is poisoned reports the unrelated error
`OutOfRange` — which the claim explicitly forbids — and `ArcRw::update`
on a poisoned cell recovers, proceeds, and returns a plain `Ok(())`. -/
theorem poisoned_lock_reported_as_out_of_range :
    (⟨1, [⟨"normal", false, true⟩]⟩ : SyncStateText).get_text 0
        = .error .OutOfRange ∧
    (Identity.update (fun _ => ⟨"Room", true⟩) (.sharedHandle 0) "x").2
        = .ok () :=
  ⟨rfl, rfl⟩

/-- C4 amended: an operation touching a poisoned primitive proceeds with
the recovered (possibly stale) inner value, but no distinct degraded-mode
indicator exists: `ArcRw::update` on a poisoned cell returns plain
`Ok(())` and stores the new text, and `SyncStateText::get_text` on an
entry whose lock is poisoned reports it as the unrelated error
`OutOfRange`. -/
theorem poison_recovery_no_indicator
    (h : RwHeap) (c : Nat) (s : String) (hp : (h c).poisoned = true)
    (l : SyncStateText) (i : Nat) (e : Entry)
    (he : l.texts[i]? = some e) (hpo : e.poisoned = true) :
    (Identity.update h (.sharedHandle c) s).2 = .ok () ∧
    currentText (Identity.update h (.sharedHandle c) s).1.1 (.sharedHandle c)
        = s ∧
    l.get_text i = .error .OutOfRange := by
  refine ⟨rfl, ?_, ?_⟩
  · simp [Identity.update, currentText, RwHeap.setText]
  · simp [SyncStateText.get_text, he, hpo]

/-- C4 witness: the amended theorem applied to a concrete poisoned cell
and a concrete poisoned entry. -/
theorem poison_recovery_no_indicator_witness :
    (Identity.update (fun _ => ⟨"Room Temperature", true⟩) (.sharedHandle 0)
        "Lab").2 = .ok () ∧
    currentText
        (Identity.update (fun _ => ⟨"Room Temperature", true⟩) (.sharedHandle 0)
          "Lab").1.1 (.sharedHandle 0) = "Lab" ∧
    (⟨1, [⟨"alarm", false, true⟩]⟩ : SyncStateText).get_text 0
        = .error .OutOfRange :=
  poison_recovery_no_indicator (fun _ => ⟨"Room Temperature", true⟩) 0 "Lab" rfl
    ⟨1, [⟨"alarm", false, true⟩]⟩ 0 ⟨"alarm", false, true⟩ rfl rfl

/-- C5: a local write (`set_property`) stores the value and invokes no
subscriber; a remote write (`set_property_remote`) stores the value and
then synchronously invokes the subscriber registered for that property
exactly once with that value before returning — the invocation list is
exactly `[(cb, x)]` — and when no subscriber is registered for the
property the remote write performs no invocation. -/
theorem local_silent_remote_notifies (o : BacnetObj) (p : PropertyIdentifier)
    (x : PropertyValue) :
    (o.set_property p x).1.props p = x ∧
    (o.set_property p x).2 = [] ∧
    (o.set_property_remote p x).1.props p = x ∧
    (∀ cb, o.callbacks.subscriberFor p = some cb →
      (o.set_property_remote p x).2 = [(cb, x)]) ∧
    (o.callbacks.subscriberFor p = none →
      (o.set_property_remote p x).2 = []) := by
  refine ⟨by simp [BacnetObj.set_property], rfl,
    by simp [BacnetObj.set_property_remote], ?_, ?_⟩
  · intro cb hcb
    cases p <;>
      simp [ObjectCallbacks.subscriberFor] at hcb <;>
      simp [BacnetObj.set_property_remote, ObjectCallbacks.trigger, hcb]
  · intro hcb
    cases p <;>
      simp [ObjectCallbacks.subscriberFor] at hcb ⊢ <;>
      simp [BacnetObj.set_property_remote, ObjectCallbacks.trigger, hcb]

/-- C5 witness: a remote write on an object with subscriber 5 registered
for PresentValue invokes it exactly once with the written value. -/
theorem local_silent_remote_notifies_witness :
    (BacnetObj.set_property_remote ⟨fun _ => .real 0, ⟨some 5, none⟩⟩
        .PresentValue (.real 235)).2 = [(5, .real 235)] :=
  (local_silent_remote_notifies ⟨fun _ => .real 0, ⟨some 5, none⟩⟩
      .PresentValue (.real 235)).2.2.2.1 5 rfl

/-- C6: registering a second subscriber on the same property replaces the
first, so a subsequent remote trigger invokes exactly the second one with
the written value (the invocation list is `[(cb2, v)]`, which contains no
invocation of the replaced `cb1` whenever the two differ), for both
callback-capable property kinds; and after `clear_all` a trigger on any
property invokes no subscriber. -/
theorem second_subscriber_replaces_first (c : ObjectCallbacks)
    (cb1 cb2 : CallbackId) (v : PropertyValue) :
    (((c.on_present_value cb1).on_present_value cb2).trigger
        .PresentValue v).2 = [(cb2, v)] ∧
    (((c.on_out_of_service cb1).on_out_of_service cb2).trigger
        .OutOfService v).2 = [(cb2, v)] ∧
    ∀ p, ((c.clear_all).trigger p v).2 = [] := by
  refine ⟨rfl, rfl, fun p => ?_⟩
  cases p <;> rfl

/-- C7: `update` accepts every input text on every identity
representation — it returns `Ok(())`, no rejection exists — and
afterwards the identity's displayed text is the new text, with its hash
(the hashed current text) and its equality reflecting it. -/
theorem update_accepts_every_text (h : RwHeap) (v : Identity) (s : String) :
    (Identity.update h v s).2 = .ok () ∧
    currentText (Identity.update h v s).1.1 (Identity.update h v s).1.2 = s ∧
    Identity.hashId (Identity.update h v s).1.1 (Identity.update h v s).1.2
        = s ∧
    Identity.eqId (Identity.update h v s).1.1 (Identity.update h v s).1.2
        (Identity.update h v s).1.2 = true := by
  cases v <;>
    simp [Identity.update, currentText, Identity.hashId, Identity.eqId,
      RwHeap.setText]

/-- C8: for every constructed identity of either representation, the
clone equals the original and hashes identically — an owned clone copies
the text, a shared clone aliases the same cell. -/
theorem clone_eq_and_hash (h : RwHeap) (v : Identity) :
    Identity.eqId h (Identity.cloneId v) v = true ∧
    Identity.hashId h (Identity.cloneId v) = Identity.hashId h v := by
  cases v <;> simp [Identity.cloneId, Identity.eqId, Identity.hashId]

/-- C9: for every property identifier other than PresentValue and
OutOfService, `trigger` invokes no callback and leaves the collection
unchanged, and `has_callback` returns false, whatever is registered. -/
theorem unsupported_property_no_callbacks (c : ObjectCallbacks)
    (p : PropertyIdentifier) (v : PropertyValue)
    (h1 : p ≠ PropertyIdentifier.PresentValue)
    (h2 : p ≠ PropertyIdentifier.OutOfService) :
    c.trigger p v = (c, []) ∧ c.has_callback p = false := by
  cases p
  · exact absurd rfl h1
  · exact absurd rfl h2
  · exact ⟨rfl, rfl⟩
  · exact ⟨rfl, rfl⟩

/-- C9 witness: a collection with a PresentValue subscriber registered,
triggered at StatusFlags, invokes nothing and reports no callback. -/
theorem unsupported_property_no_callbacks_witness :
    (ObjectCallbacks.new.on_present_value 3).trigger .StatusFlags
        (.boolean true) = (ObjectCallbacks.new.on_present_value 3, []) ∧
    (ObjectCallbacks.new.on_present_value 3).has_callback .StatusFlags
        = false :=
  unsupported_property_no_callbacks (ObjectCallbacks.new.on_present_value 3)
    .StatusFlags (.boolean true) (by decide) (by decide)

/-- C10: cloning a callback collection always yields the empty
collection — `has_callback` on the clone is false for every property —
while the source collection is passed by value and left untouched. -/
theorem clone_yields_empty_callbacks (c : ObjectCallbacks)
    (p : PropertyIdentifier) :
    (c.cloneCb).has_callback p = false ∧ c.cloneCb = ObjectCallbacks.new := by
  refine ⟨?_, rfl⟩
  cases p <;> rfl
